import Mathlib

/-!
# Verification of the PDF print-production engine

A shallow embedding, in Lean 4, of the algorithmic core of the repository:
the JPEG density-tag injector, the rasterizer's scale/size arithmetic, the
page colour classifier, the print-readiness aggregator, the price-tier
resolver, and the per-page processing pipeline's failure behaviour.

Conventions of the embedding:
* JavaScript numbers are modelled as exact rationals (`ℚ`); `Math.floor` is
  `Int.floor` and `Math.round` (half toward `+∞`) is Mathlib's `round`.
* Byte buffers (`ArrayBuffer` / `Uint8ClampedArray`) are `List ℕ` whose
  entries are intended to be `< 256`.
* A `DataView` access out of range throws a `RangeError` in JavaScript,
  which leaves the surrounding promise unsettled; this is modelled by
  `Except Unit` with `Except.error ()` for the failing runs.
-/

namespace PdfTools

/-! ## Density Tag Injector (`injectDpiToJpeg`, PdfToImageConverter.tsx) -/

/-- Big-endian 16-bit read, `DataView.getUint16(o)`: `none` models the
`RangeError` thrown when the buffer is too short. -/
def getUint16 (b : List ℕ) (o : ℕ) : Option ℕ :=
  match b.get? o, b.get? (o + 1) with
  | some x, some y => some (256 * x + y)
  | _, _ => none

/-- Byte write `DataView.setUint8(o, v)`: stores `v mod 256`; `none` on out-of-range. -/
def setUint8 (b : List ℕ) (o v : ℕ) : Option (List ℕ) :=
  if o < b.length then some (b.set o (v % 256)) else none

/-- Big-endian 16-bit write, `DataView.setUint16(o, v)`: stores `v mod 2^16`
as two bytes; `none` on out-of-range. -/
def setUint16 (b : List ℕ) (o v : ℕ) : Option (List ℕ) :=
  if o + 1 < b.length then some ((b.set o (v / 256 % 256)).set (o + 1) (v % 256)) else none

/-- The JPEG SOI marker word, `0xFFD8`. -/
def soiMarker : ℕ := 0xFFD8

/-- The JFIF APP0 marker word, `0xFFE0`. -/
def app0Marker : ℕ := 0xFFE0

/-- Function `injectDpiToJpeg(blob, dpi)` from `PdfToImageConverter.tsx`: if the first
two 16-bit words are `0xFFD8 0xFFE0`, patch the density-units byte at
offset 13 to `1` and the two big-endian densities at offsets 14 and 16 to
`dpi`; otherwise return the input unchanged.  The `&&` of the source
short-circuits, so the second word is only read when the first matched.
`Except.error ()` models a thrown `RangeError` (the promise never resolves). -/
def injectDpiToJpeg (b : List ℕ) (dpi : ℕ) : Except Unit (List ℕ) :=
  match getUint16 b 0 with
  | none => .error ()
  | some w0 =>
    if w0 = soiMarker then
      match getUint16 b 2 with
      | none => .error ()
      | some w1 =>
        if w1 = app0Marker then
          match setUint8 b 13 1 with
          | none => .error ()
          | some b1 =>
            match setUint16 b1 14 dpi with
            | none => .error ()
            | some b2 =>
              match setUint16 b2 16 dpi with
              | none => .error ()
              | some b3 => .ok b3
        else .ok b
    else .ok b

/-- The four-byte JFIF signature `FF D8 FF E0` tested by the injector. -/
def jfifSignature : List ℕ := [0xFF, 0xD8, 0xFF, 0xE0]

/-- The combined effect of the three `DataView` writes performed on a
signature match: density units byte `1` at offset 13 and the big-endian
`dpi` at offsets 14 and 16. -/
def patchDensity (b : List ℕ) (dpi : ℕ) : List ℕ :=
  ((((b.set 13 1).set 14 (dpi / 256 % 256)).set 15 (dpi % 256)).set 16
    (dpi / 256 % 256)).set 17 (dpi % 256)

/-! ## Rasterizer arithmetic (`processPdf`, `handleFileChange`,
`PdfToImageConverter.tsx`; `analyzePdf`, `PdfAnalyzer.tsx`) -/

/-- Scale resolution of `processPdf`: with a present, strictly positive
`targetWidthMm` the scale is `(targetWidthMm/25.4*dpi)/widthPt`, otherwise
`dpi/72`.  `none` models the empty-string state of the input field. -/
def renderScale (widthPt dpi : ℚ) (targetWidthMm : Option ℚ) : ℚ :=
  match targetWidthMm with
  | some t => if 0 < t then t / 25.4 * dpi / widthPt else dpi / 72
  | none => dpi / 72

/-- Pixel width `canvas.width = Math.floor(finalViewport.width)` where the viewport width
at scale `s` is `widthPt * s`. -/
def outputWidthPx (widthPt dpi : ℚ) (targetWidthMm : Option ℚ) : ℤ :=
  ⌊widthPt * renderScale widthPt dpi targetWidthMm⌋

/-- Pixel height `canvas.height = Math.floor(finalViewport.height)`; the same scale is
applied to the height. -/
def outputHeightPx (widthPt heightPt dpi : ℚ) (targetWidthMm : Option ℚ) : ℤ :=
  ⌊heightPt * renderScale widthPt dpi targetWidthMm⌋

/-- Reported output size `Math.round((canvas.width / dpi) * 25.4 * 10) / 10`
(one-decimal millimetres), from the `PagePreview` construction. -/
def outputMm (px : ℤ) (dpi : ℚ) : ℚ := (round ((px : ℚ) / dpi * 25.4 * 10) : ℤ) / 10

/-- The converter's original-size report
`Math.round((viewport.width / 72) * 25.4 * 10) / 10` (one-decimal mm). -/
def converterMm (pt : ℚ) : ℚ := (round (pt / 72 * 25.4 * 10) : ℤ) / 10

/-- The analyzer's per-page size `Math.round((viewport.width / 72) * 25.4)`
(whole millimetres). -/
def analyzerMm (pt : ℚ) : ℤ := round (pt / 72 * 25.4)

/-! ## Page Classifier (`analyzePdf`, PdfAnalyzer.tsx) -/

/-- Absolute difference `|a - b|` on byte values, as `Math.abs` computes on JavaScript numbers. -/
def absDiff (a b : ℕ) : ℕ := max a b - min a b

/-- The byte offsets visited by `for (let j = 0; j < data.length; j += 16)`. -/
def sampleIdx (n : ℕ) : List ℕ := (List.range ((n + 15) / 16)).map (· * 16)

/-- The per-sample test of the first analyzer loop (lines 75-80):
`Math.abs(data[j] - data[j+1]) > 18 || Math.abs(data[j+1] - data[j+2]) > 18`.
An out-of-range index yields `undefined`, whose arithmetic is `NaN` and
compares false; the explicit bound guards reproduce that. -/
def pixelTest (data : List ℕ) (j : ℕ) : Bool :=
  (decide (j + 1 < data.length) && decide (18 < absDiff (data.getD j 0) (data.getD (j + 1) 0)))
    || (decide (j + 2 < data.length)
      && decide (18 < absDiff (data.getD (j + 1) 0) (data.getD (j + 2) 0)))

/-- The colour verdict of the first analyzer loop: true exactly when some
sampled offset passes `pixelTest` (the source breaks at the first hit, which
computes the same boolean). -/
def isColorScan (data : List ℕ) : Bool := (sampleIdx data.length).any (pixelTest data)

/-- The per-sample test of the second analyzer variant (lines 371-379), which
additionally tests `Math.abs(r - b) > 18`. -/
def pixelTestRB (data : List ℕ) (j : ℕ) : Bool :=
  pixelTest data j
    || (decide (j + 2 < data.length)
      && decide (18 < absDiff (data.getD j 0) (data.getD (j + 2) 0)))

/-- The colour verdict of the second analyzer variant. -/
def isColorScanRB (data : List ℕ) : Bool := (sampleIdx data.length).any (pixelTestRB data)

/-! ## Tier Resolver and price composition (PriceQuoter.tsx) -/

/-- A volume price break (`PriceTier` in PriceQuoter.tsx). -/
structure PriceTier where
  minAmount : ℚ
  price : ℚ
deriving DecidableEq, Repr

/-- Tier type discriminator of `PriceOption`. -/
inductive TierType where
  | quantity
  | pages
deriving DecidableEq, Repr

/-- A named price rule (`PriceOption` in PriceQuoter.tsx). -/
structure PriceOption where
  id : String
  name : String
  basePrice : ℚ
  tiers : List PriceTier
  tierType : TierType
  sheetThickness : Option ℚ := none
deriving DecidableEq, Repr

/-- Descending comparison on `minAmount`, the order induced by the source's
comparator `(a, b) => b.minAmount - a.minAmount`. -/
def tierGE (a b : PriceTier) : Prop := b.minAmount ≤ a.minAmount

instance : DecidableRel tierGE := fun a b => inferInstanceAs (Decidable (b.minAmount ≤ a.minAmount))

instance : IsTotal PriceTier tierGE := ⟨fun a b => le_total b.minAmount a.minAmount⟩

instance : IsTrans PriceTier tierGE := ⟨fun _ _ _ h1 h2 => le_trans h2 h1⟩

/-- Qualifying tiers `tiers.filter(t => q >= t.minAmount)`. -/
def qualifying (tiers : List PriceTier) (q : ℚ) : List PriceTier :=
  tiers.filter fun t => t.minAmount ≤ q

/-- JavaScript `Array.prototype.sort` is stable; sorting descending by `minAmount` is
embedded as a stable insertion sort under `tierGE`. -/
def sortDesc (l : List PriceTier) : List PriceTier := List.insertionSort tierGE l

/-- The tier-resolution pattern of `currentBindingPrice` / `currentPaperPrice`:
`opt.tiers.filter(t => q >= t.minAmount).sort((a,b) => b.minAmount - a.minAmount)[0]`,
falling back to `opt.basePrice` when no tier qualifies. -/
def resolvePrice (opt : PriceOption) (q : ℚ) : ℚ :=
  match sortDesc (qualifying opt.tiers q) with
  | [] => opt.basePrice
  | t :: _ => t.price

/-- An after-treatment option (`Addon` in PriceQuoter.tsx). -/
structure Addon where
  id : String
  name : String
  pricePerUnit : ℚ
  selected : Bool
deriving DecidableEq, Repr

/-- Addon sum `addons.filter(a => a.selected).reduce((sum, a) => sum + a.pricePerUnit, 0)`. -/
def addonTotal (addons : List Addon) : ℚ :=
  ((addons.filter (·.selected)).map (·.pricePerUnit)).sum

/-- Option lookup `find(o => o.id === selId)` followed by the `if (!opt) return 0` guard of
the two memos. -/
def currentPrice (opts : List PriceOption) (selId : String) (q : ℚ) : ℚ :=
  match opts.find? (fun o => o.id == selId) with
  | none => 0
  | some opt => resolvePrice opt q

/-- The `totalPrice` memo of PriceQuoter.tsx: zero when `manualPages === 0`, otherwise
`Math.round(perBookPrice * quantity)` for
`perBookPrice = color*5 + bw*1 + pages*paperPrice + bindingPrice + addonTotal`. -/
def totalPrice (bindingOpts paperOpts : List PriceOption) (addons : List Addon)
    (selBinding selPaper : String) (manualPages manualColor manualBw quantity : ℚ) : ℤ :=
  if manualPages = 0 then 0
  else
    round ((manualColor * 5 + manualBw * 1
      + manualPages * currentPrice paperOpts selPaper manualPages
      + currentPrice bindingOpts selBinding quantity
      + addonTotal addons) * quantity)

/-- The default binding options of the source (`defaultBindingOptions`). -/
def defaultBindingOptions : List PriceOption :=
  [{ id := "b1", name := "perfect", basePrice := 50, tierType := .quantity,
     tiers := [⟨50, 45⟩, ⟨100, 35⟩] },
   { id := "b2", name := "comb", basePrice := 40, tierType := .quantity, tiers := [] }]

/-- The default paper options of the source (`defaultPaperOptions`). -/
def defaultPaperOptions : List PriceOption :=
  [{ id := "p1", name := "80g", basePrice := 1/2, tierType := .pages, sheetThickness := some (1/10),
     tiers := [⟨51, 2/5⟩, ⟨101, 3/10⟩] },
   { id := "p2", name := "100g", basePrice := 4/5, tierType := .pages,
     sheetThickness := some (3/25), tiers := [] }]

/-! ## Print-Readiness Aggregator (`stats`, PdfAnalyzer.tsx) -/

/-- One page's analysis record (`PageAnalysis` in PdfAnalyzer.tsx); the
thumbnail data URL is kept as an opaque string. -/
structure PageAnalysis where
  pageNumber : ℕ
  isColor : Bool
  thumbnail : String
  widthMm : ℤ
  heightMm : ℤ
  isLowRes : Bool
deriving DecidableEq, Repr

/-- The document-level statistics object built by the `stats` memo. -/
structure DocumentStats where
  color : ℕ
  bw : ℕ
  total : ℕ
  spine : ℚ
  mainSize : String
  isBleed : Bool
  hasLowRes : Bool
  colorPagesArr : List ℕ
  bwPagesArr : List ℕ
deriving DecidableEq, Repr

/-- The `stats` memo of PdfAnalyzer.tsx: `null` when `results.length === 0`,
otherwise counts, page lists, spine estimate `(length/2)*0.1` (exact at two
decimals, so `toFixed(2)` is the identity on it), page-1 size string and
bleed heuristic `210 < widthMm < 220`, and the low-resolution flag. -/
def stats (results : List PageAnalysis) : Option DocumentStats :=
  match results with
  | [] => none
  | r0 :: _ =>
    let colorPagesArr := (results.filter (·.isColor)).map (·.pageNumber)
    let bwPagesArr := (results.filter fun r => !r.isColor).map (·.pageNumber)
    some { color := colorPagesArr.length
           bw := bwPagesArr.length
           total := results.length
           spine := (results.length : ℚ) / 2 * (1/10)
           mainSize := toString r0.widthMm ++ " x " ++ toString r0.heightMm ++ " mm"
           isBleed := decide (210 < r0.widthMm ∧ r0.widthMm < 220)
           hasLowRes := results.any (·.isLowRes)
           colorPagesArr := colorPagesArr
           bwPagesArr := bwPagesArr }

/-! ## Per-page pipeline failure behaviour (`analyzePdf` / `processPdf`) -/

/-- Outcome of handling one page inside the `for` loop: the 2D context may be
unavailable (`if (!context) continue`), the render promise may reject
(`await page.render(...)` throws), or the page produces a result value. -/
inductive PageStep (α : Type) where
  | ok (a : α)
  | noContext
  | renderFail
deriving DecidableEq, Repr

/-- The document-run loop of `analyzePdf` / `processPdf`: pages are processed
in order inside one `try`; a missing context skips the page (`continue`); a
render rejection throws out of the loop to the document-level `catch`, which
discards all per-page results (`setResults` is never reached). -/
def runPages {α : Type} : List (PageStep α) → Except Unit (List α)
  | [] => .ok []
  | .ok a :: rest =>
    match runPages rest with
    | .ok l => .ok (a :: l)
    | .error e => .error e
  | .noContext :: rest => runPages rest
  | .renderFail :: _ => .error ()

/-- The page results a run commits: the payloads of its `ok` pages, in order. -/
def okPages {α : Type} (pages : List (PageStep α)) : List α :=
  pages.filterMap fun s => match s with | .ok a => some a | _ => none

end PdfTools

namespace PdfTools

/-! ### Basic facts about the injector -/

theorem length_setUint8 {b c : List ℕ} {o v : ℕ} (h : setUint8 b o v = some c) :
    c.length = b.length := by
  unfold setUint8 at h
  split at h
  · cases h; simp
  · cases h

theorem length_setUint16 {b c : List ℕ} {o v : ℕ} (h : setUint16 b o v = some c) :
    c.length = b.length := by
  unfold setUint16 at h
  split at h
  · cases h; simp
  · cases h

theorem getD_setUint8 {b c : List ℕ} {o v : ℕ} (h : setUint8 b o v = some c)
    {i : ℕ} (hi : i ≠ o) : c.getD i 0 = b.getD i 0 := by
  unfold setUint8 at h
  split at h
  · cases h
    simp [List.getD, List.getElem?_set_ne (Ne.symm hi)]
  · cases h

theorem getD_setUint16 {b c : List ℕ} {o v : ℕ} (h : setUint16 b o v = some c)
    {i : ℕ} (hi : i ≠ o) (hi1 : i ≠ o + 1) : c.getD i 0 = b.getD i 0 := by
  unfold setUint16 at h
  split at h
  · cases h
    simp [List.getD, List.getElem?_set_ne (Ne.symm hi), List.getElem?_set_ne (Ne.symm hi1)]
  · cases h

theorem getD_set_eq {l : List ℕ} {i : ℕ} (v : ℕ) (h : i < l.length) :
    (l.set i v).getD i 0 = v := by
  simp [List.getD, List.getElem?_set, h]

theorem getD_set_ne (l : List ℕ) {i j : ℕ} (v : ℕ) (h : i ≠ j) :
    (l.set i v).getD j 0 = l.getD j 0 := by
  simp [List.getD, List.getElem?_set_ne h]

theorem getUint16_inv {b : List ℕ} {o w : ℕ} (h : getUint16 b o = some w) :
    ∃ x y, b.get? o = some x ∧ b.get? (o + 1) = some y ∧ w = 256 * x + y := by
  unfold getUint16 at h
  split at h
  · rename_i x y hx hy
    cases h
    exact ⟨x, y, hx, hy, rfl⟩
  · cases h

theorem injectDpiToJpeg_of_sig (rest : List ℕ) (dpi : ℕ) (hlen : 14 ≤ rest.length) :
    injectDpiToJpeg (255 :: 216 :: 255 :: 224 :: rest) dpi =
      .ok (patchDensity (255 :: 216 :: 255 :: 224 :: rest) dpi) := by
  have hl : (255 :: 216 :: 255 :: 224 :: rest).length = rest.length + 4 := by simp
  have e1 : setUint8 (255 :: 216 :: 255 :: 224 :: rest) 13 1 =
      some ((255 :: 216 :: 255 :: 224 :: rest).set 13 1) := by
    rw [setUint8, if_pos (by rw [hl]; omega)]
  have e2 : setUint16 ((255 :: 216 :: 255 :: 224 :: rest).set 13 1) 14 dpi =
      some ((((255 :: 216 :: 255 :: 224 :: rest).set 13 1).set 14 (dpi / 256 % 256)).set 15
        (dpi % 256)) := by
    rw [setUint16, if_pos (by simp [hl]; omega)]
  have e3 : setUint16 ((((255 :: 216 :: 255 :: 224 :: rest).set 13 1).set 14
      (dpi / 256 % 256)).set 15 (dpi % 256)) 16 dpi =
      some (patchDensity (255 :: 216 :: 255 :: 224 :: rest) dpi) := by
    rw [setUint16, if_pos (by simp [hl]; omega)]
    rfl
  unfold injectDpiToJpeg
  rw [show getUint16 (255 :: 216 :: 255 :: 224 :: rest) 0 = some 0xFFD8 from rfl,
    show getUint16 (255 :: 216 :: 255 :: 224 :: rest) 2 = some 0xFFE0 from rfl]
  simp only [soiMarker, app0Marker, reduceIte, e1, e2, e3]

theorem injectDpiToJpeg_no_sig (b : List ℕ) (dpi : ℕ) (hb : ∀ x ∈ b, x < 256)
    (hlen : 4 ≤ b.length) (hsig : b.take 4 ≠ jfifSignature) :
    injectDpiToJpeg b dpi = .ok b := by
  rcases b with _ | ⟨x0, _ | ⟨x1, _ | ⟨x2, _ | ⟨x3, rest⟩⟩⟩⟩ <;> simp at hlen
  have hx0 : x0 < 256 := hb _ (by simp)
  have hx1 : x1 < 256 := hb _ (by simp)
  have hx2 : x2 < 256 := hb _ (by simp)
  have hx3 : x3 < 256 := hb _ (by simp)
  unfold injectDpiToJpeg
  rw [show getUint16 (x0 :: x1 :: x2 :: x3 :: rest) 0 = some (256 * x0 + x1) from rfl,
    show getUint16 (x0 :: x1 :: x2 :: x3 :: rest) 2 = some (256 * x2 + x3) from rfl]
  by_cases h0 : 256 * x0 + x1 = soiMarker
  · have hc0 : x0 = 255 ∧ x1 = 216 := by unfold soiMarker at h0; omega
    by_cases h1 : 256 * x2 + x3 = app0Marker
    · exfalso
      have hc1 : x2 = 255 ∧ x3 = 224 := by unfold app0Marker at h1; omega
      exact hsig (by simp [jfifSignature, hc0.1, hc0.2, hc1.1, hc1.2])
    · simp [h0, h1]
  · simp [h0]

/-! ### Density Tag Injector behaviour split (claim C2) -/

/-- Claim C2 counterexample: on the four-byte input that is exactly the JFIF
signature, the injector enters the patching branch and `setUint8(13, 1)`
throws a `RangeError` (offset 13 is out of range), so the operation fails —
there is no result with byte 13 equal to 1, and the function is not total on
signature-bearing inputs. -/
theorem injectDpiToJpeg_sig_only_fails : injectDpiToJpeg jfifSignature 300 = .error () := rfl

/-- Claim C2 (amended): for byte inputs of length at least 4 whose first four
bytes are not the JFIF signature the injector returns the input unchanged,
and for byte inputs of length at least 18 whose first four bytes are the
signature (and `dpi < 2^16`, the width of the stored field) it succeeds with
the density-units byte at offset 13 set to 1 and the big-endian 16-bit fields
at offsets 14 and 16 both reading back as `dpi`. -/
theorem injectDpiToJpeg_spec (b : List ℕ) (dpi : ℕ) (hb : ∀ x ∈ b, x < 256) :
    (4 ≤ b.length → b.take 4 ≠ jfifSignature → injectDpiToJpeg b dpi = .ok b) ∧
    (18 ≤ b.length → b.take 4 = jfifSignature → dpi < 65536 →
      ∃ c, injectDpiToJpeg b dpi = .ok c ∧ c.getD 13 0 = 1 ∧
        256 * c.getD 14 0 + c.getD 15 0 = dpi ∧ 256 * c.getD 16 0 + c.getD 17 0 = dpi) := by
  constructor
  · exact fun hlen hsig => injectDpiToJpeg_no_sig b dpi hb hlen hsig
  · intro hlen hsig hdpi
    rcases b with _ | ⟨x0, _ | ⟨x1, _ | ⟨x2, _ | ⟨x3, rest⟩⟩⟩⟩ <;>
      simp [jfifSignature] at hsig
    obtain ⟨rfl, rfl, rfl, rfl⟩ := hsig
    simp only [List.length_cons] at hlen
    have hrest : 14 ≤ rest.length := by omega
    have g13 : (patchDensity (255 :: 216 :: 255 :: 224 :: rest) dpi).getD 13 0 = 1 := by
      unfold patchDensity
      rw [getD_set_ne _ _ (by omega), getD_set_ne _ _ (by omega), getD_set_ne _ _ (by omega),
        getD_set_ne _ _ (by omega)]
      exact getD_set_eq _ (by simp; omega)
    have g14 : (patchDensity (255 :: 216 :: 255 :: 224 :: rest) dpi).getD 14 0 =
        dpi / 256 % 256 := by
      unfold patchDensity
      rw [getD_set_ne _ _ (by omega), getD_set_ne _ _ (by omega), getD_set_ne _ _ (by omega)]
      exact getD_set_eq _ (by simp; omega)
    have g15 : (patchDensity (255 :: 216 :: 255 :: 224 :: rest) dpi).getD 15 0 = dpi % 256 := by
      unfold patchDensity
      rw [getD_set_ne _ _ (by omega), getD_set_ne _ _ (by omega)]
      exact getD_set_eq _ (by simp; omega)
    have g16 : (patchDensity (255 :: 216 :: 255 :: 224 :: rest) dpi).getD 16 0 =
        dpi / 256 % 256 := by
      unfold patchDensity
      rw [getD_set_ne _ _ (by omega)]
      exact getD_set_eq _ (by simp; omega)
    have g17 : (patchDensity (255 :: 216 :: 255 :: 224 :: rest) dpi).getD 17 0 = dpi % 256 := by
      unfold patchDensity
      exact getD_set_eq _ (by simp; omega)
    exact ⟨patchDensity (255 :: 216 :: 255 :: 224 :: rest) dpi,
      injectDpiToJpeg_of_sig rest dpi hrest, g13, by rw [g14, g15]; omega,
      by rw [g16, g17]; omega⟩

/-- Claim C2 witness: on a concrete 18-byte signature-bearing buffer with
`dpi = 300`, the injector succeeds and the patched fields read back `1`,
`300`, `300`. -/
theorem injectDpiToJpeg_spec_witness :
    (∀ x ∈ [255, 216, 255, 224, 7, 7, 7, 7, 7, 7, 7, 7, 7, 7, 7, 7, 7, 7], x < 256) ∧
      18 ≤ List.length [255, 216, 255, 224, 7, 7, 7, 7, 7, 7, 7, 7, 7, 7, 7, 7, 7, 7] ∧
      List.take 4 [255, 216, 255, 224, 7, 7, 7, 7, 7, 7, 7, 7, 7, 7, 7, 7, 7, 7] =
        jfifSignature ∧ (300 : ℕ) < 65536 ∧
      ∃ c, injectDpiToJpeg [255, 216, 255, 224, 7, 7, 7, 7, 7, 7, 7, 7, 7, 7, 7, 7, 7, 7] 300 =
          .ok c ∧ c.getD 13 0 = 1 ∧
        256 * c.getD 14 0 + c.getD 15 0 = 300 ∧ 256 * c.getD 16 0 + c.getD 17 0 = 300 :=
  ⟨by decide, by decide, by decide, by decide,
    (injectDpiToJpeg_spec _ 300 (by decide)).2 (by decide) (by decide) (by decide)⟩

/-! ### Density Tag Injector frame guarantee (claim C3) -/

/-- Claim C3: whenever the injector produces an output, the output has
exactly the input's byte length and agrees with the input at every offset
outside 13–17; and when the four-byte signature is absent from a byte-valued
input, the output is the input, unchanged. -/
theorem injectDpiToJpeg_frame (b : List ℕ) (dpi : ℕ) (c : List ℕ)
    (h : injectDpiToJpeg b dpi = .ok c) :
    c.length = b.length ∧
    (∀ i, i < 13 ∨ 17 < i → c.getD i 0 = b.getD i 0) ∧
    ((∀ x ∈ b, x < 256) → b.take 4 ≠ jfifSignature → c = b) := by
  unfold injectDpiToJpeg at h
  split at h
  · cases h
  · rename_i w0 hg0
    split at h
    · rename_i hw0
      split at h
      · cases h
      · rename_i w1 hg2
        split at h
        · rename_i hw1
          split at h
          · cases h
          · rename_i b1 hs8
            split at h
            · cases h
            · rename_i b2 hs14
              split at h
              · cases h
              · rename_i b3 hs16
                cases h
                refine ⟨?_, ?_, ?_⟩
                · rw [length_setUint16 hs16, length_setUint16 hs14, length_setUint8 hs8]
                · intro i hi
                  rw [getD_setUint16 hs16 (by omega) (by omega),
                    getD_setUint16 hs14 (by omega) (by omega),
                    getD_setUint8 hs8 (by omega)]
                · intro hb hsig
                  exfalso
                  obtain ⟨y0, y1, hb0, hb1, hw0e⟩ := getUint16_inv hg0
                  obtain ⟨y2, y3, hb2, hb3, hw1e⟩ := getUint16_inv hg2
                  have hy0 : y0 < 256 := hb _ (List.get?_mem hb0)
                  have hy1 : y1 < 256 := hb _ (List.get?_mem hb1)
                  have hy2 : y2 < 256 := hb _ (List.get?_mem hb2)
                  have hy3 : y3 < 256 := hb _ (List.get?_mem hb3)
                  rw [hw0] at hw0e
                  rw [hw1] at hw1e
                  unfold soiMarker at hw0e
                  unfold app0Marker at hw1e
                  have e0 : y0 = 255 := by omega
                  have e1 : y1 = 216 := by omega
                  have e2 : y2 = 255 := by omega
                  have e3 : y3 = 224 := by omega
                  apply hsig
                  rcases b with _ | ⟨x0, _ | ⟨x1, _ | ⟨x2, _ | ⟨x3, rest⟩⟩⟩⟩ <;>
                    simp_all [jfifSignature]
        · cases h
          exact ⟨rfl, fun i _ => rfl, fun _ _ => rfl⟩
    · cases h
      exact ⟨rfl, fun i _ => rfl, fun _ _ => rfl⟩

/-- Claim C3 witness: on a concrete 18-byte signature-bearing buffer the
output has the input's length and agrees with it at offset 5. -/
theorem injectDpiToJpeg_frame_witness :
    injectDpiToJpeg [255, 216, 255, 224, 7, 7, 7, 7, 7, 7, 7, 7, 7, 7, 7, 7, 7, 7] 300 =
      .ok [255, 216, 255, 224, 7, 7, 7, 7, 7, 7, 7, 7, 7, 1, 1, 44, 1, 44] ∧
    List.length [255, 216, 255, 224, 7, 7, 7, 7, 7, 7, 7, 7, 7, 1, 1, 44, 1, 44] =
      List.length [255, 216, 255, 224, 7, 7, 7, 7, 7, 7, 7, 7, 7, 7, 7, 7, 7, 7] ∧
    List.getD [255, 216, 255, 224, 7, 7, 7, 7, 7, 7, 7, 7, 7, 1, 1, 44, 1, 44] 5 0 =
      List.getD [255, 216, 255, 224, 7, 7, 7, 7, 7, 7, 7, 7, 7, 7, 7, 7, 7, 7] 5 0 :=
  ⟨rfl,
    (injectDpiToJpeg_frame [255, 216, 255, 224, 7, 7, 7, 7, 7, 7, 7, 7, 7, 7, 7, 7, 7, 7] 300
      [255, 216, 255, 224, 7, 7, 7, 7, 7, 7, 7, 7, 7, 1, 1, 44, 1, 44] rfl).1,
    (injectDpiToJpeg_frame [255, 216, 255, 224, 7, 7, 7, 7, 7, 7, 7, 7, 7, 7, 7, 7, 7, 7] 300
      [255, 216, 255, 224, 7, 7, 7, 7, 7, 7, 7, 7, 7, 1, 1, 44, 1, 44] rfl).2.1 5 (by omega)⟩

/-! ### The pipeline's failure policy (claim C1) -/

/-- Claim C1 counterexample: in a two-page document whose first page's
render/composite step fails while the second page is renderable, the whole
document run fails (the document-level `catch` fires and no per-page results
are committed) — the later renderable page is not in any output, contradicting
the claimed partial-failure tolerance. -/
theorem runPages_renderFail_aborts : runPages [PageStep.renderFail, PageStep.ok 2] = .error () :=
  rfl

/-- Claim C1 (amended): a render/composite rejection on any page aborts the
whole document run with no per-page output committed; only a missing 2D
canvas context is skipped locally, so in a run without render failures every
successfully handled page appears in the final output, in order. -/
theorem runPages_failure_policy {α : Type} (pages : List (PageStep α)) :
    (PageStep.renderFail ∈ pages → runPages pages = .error ()) ∧
    (PageStep.renderFail ∉ pages → runPages pages = .ok (okPages pages)) := by
  induction pages with
  | nil =>
    refine ⟨fun h => absurd h (List.not_mem_nil _), fun _ => rfl⟩
  | cons s rest ih =>
    cases s with
    | ok a =>
      refine ⟨fun h => ?_, fun h => ?_⟩
      · have hr : PageStep.renderFail ∈ rest := by
          rcases List.mem_cons.mp h with h' | h'
          · exact absurd h' (by simp)
          · exact h'
        simp only [runPages, ih.1 hr]
      · have hr : PageStep.renderFail ∉ rest := fun hm => h (List.mem_cons_of_mem _ hm)
        simp only [runPages, ih.2 hr, okPages, List.filterMap_cons]
    | noContext =>
      refine ⟨fun h => ?_, fun h => ?_⟩
      · have hr : PageStep.renderFail ∈ rest := by
          rcases List.mem_cons.mp h with h' | h'
          · exact absurd h' (by simp)
          · exact h'
        simp only [runPages, ih.1 hr]
      · have hr : PageStep.renderFail ∉ rest := fun hm => h (List.mem_cons_of_mem _ hm)
        simp only [runPages, ih.2 hr, okPages, List.filterMap_cons]
    | renderFail =>
      refine ⟨fun _ => rfl, fun h => absurd (List.mem_cons_self _ _) h⟩

/-- Claim C1 witness: a concrete run with a skipped-context page and two
successful pages commits exactly the successful pages, in order. -/
theorem runPages_failure_policy_witness :
    PageStep.renderFail ∉ ([.noContext, .ok 5, .ok 7] : List (PageStep ℕ)) ∧
      runPages ([.noContext, .ok 5, .ok 7] : List (PageStep ℕ)) = .ok [5, 7] :=
  ⟨by decide, (runPages_failure_policy _).2 (by decide)⟩

/-! ### Rasterizer scale resolution and flooring (claim C4) -/

/-- Claim C4: with a present, strictly positive `targetWidthMm` the resolved
scale is `(targetWidthMm/25.4*dpi)/widthPt`, otherwise `dpi/72`; the output
bitmap dimensions are the floors of the scaled page dimensions; and the
output pixel width never exceeds the `targetWidthMm`-derived pixel width. -/
theorem renderScale_floor_policy (widthPt heightPt dpi t : ℚ)
    (hw : 0 < widthPt) (ht : 0 < t) :
    renderScale widthPt dpi (some t) = t / 25.4 * dpi / widthPt ∧
    renderScale widthPt dpi none = dpi / 72 ∧
    outputWidthPx widthPt dpi (some t) = ⌊widthPt * renderScale widthPt dpi (some t)⌋ ∧
    outputHeightPx widthPt heightPt dpi (some t) =
      ⌊heightPt * renderScale widthPt dpi (some t)⌋ ∧
    (outputWidthPx widthPt dpi (some t) : ℚ) ≤ t / 25.4 * dpi := by
  have hscale : renderScale widthPt dpi (some t) = t / 25.4 * dpi / widthPt := by
    simp [renderScale, ht]
  refine ⟨hscale, rfl, rfl, rfl, ?_⟩
  have hval : widthPt * renderScale widthPt dpi (some t) = t / 25.4 * dpi := by
    rw [hscale]
    field_simp
    ring
  calc (outputWidthPx widthPt dpi (some t) : ℚ)
      = (⌊widthPt * renderScale widthPt dpi (some t)⌋ : ℚ) := rfl
    _ ≤ widthPt * renderScale widthPt dpi (some t) := Int.floor_le _
    _ = t / 25.4 * dpi := hval

/-- Claim C4 witness: the scale/floor policy instantiated at an A4 page
(595 × 842 pt) with `dpi = 300` and `targetWidthMm = 210`. -/
theorem renderScale_floor_policy_witness :
    (0 : ℚ) < 595 ∧ (0 : ℚ) < 210 ∧
      ((outputWidthPx 595 300 (some 210) : ℚ) ≤ 210 / 25.4 * 300) :=
  ⟨by norm_num, by norm_num,
    (renderScale_floor_policy 595 842 300 210 (by norm_num) (by norm_num)).2.2.2.2⟩

/-! ### Page Classifier colour rule (claim C5) -/

/-- Claim C5 counterexample: on the single-pixel RGBA buffer `[28, 14, 0, 255]`
the second analyzer variant (which also tests `|R−B| > 18`) reports colour,
yet no sampled pixel satisfies the claimed rule `|R−G| > 18 ∨ |G−B| > 18` —
so `isColor` is not equivalent to the claimed rule for that loop. -/
theorem isColorScanRB_beyond_claimed_rule :
    isColorScanRB [28, 14, 0, 255] = true ∧
      ((sampleIdx (List.length [28, 14, 0, 255])).all
        fun j => !pixelTest [28, 14, 0, 255] j) = true := by
  decide

/-- Claim C5 (amended): the first analyzer loop classifies a bitmap as colour
exactly when some sampled pixel (every 4th pixel of the RGBA buffer, raster
order) has `|R−G| > 18` or `|G−B| > 18`; the second variant additionally
triggers on `|R−B| > 18`; and a uniformly gray buffer (`R=G=B` at every
sampled pixel) is classified non-colour by both. -/
theorem isColorScan_spec (data : List ℕ) :
    (isColorScan data = true ↔ ∃ j ∈ sampleIdx data.length, pixelTest data j = true) ∧
    (isColorScanRB data = true ↔ ∃ j ∈ sampleIdx data.length, pixelTestRB data j = true) ∧
    ((∀ j ∈ sampleIdx data.length,
        data.getD j 0 = data.getD (j + 1) 0 ∧ data.getD (j + 1) 0 = data.getD (j + 2) 0) →
      isColorScan data = false ∧ isColorScanRB data = false) := by
  refine ⟨List.any_eq_true, List.any_eq_true, fun hgray => ?_⟩
  constructor
  · rw [isColorScan, List.any_eq_false]
    intro j hj
    obtain ⟨h1, h2⟩ := hgray j hj
    have e0 : absDiff (data.getD j 0) (data.getD (j + 1) 0) = 0 := by rw [h1]; simp [absDiff]
    have e1 : absDiff (data.getD (j + 1) 0) (data.getD (j + 2) 0) = 0 := by
      rw [h2]; simp [absDiff]
    simp only [pixelTest, e0, e1]
    simp
  · rw [isColorScanRB, List.any_eq_false]
    intro j hj
    obtain ⟨h1, h2⟩ := hgray j hj
    have e0 : absDiff (data.getD j 0) (data.getD (j + 1) 0) = 0 := by rw [h1]; simp [absDiff]
    have e1 : absDiff (data.getD (j + 1) 0) (data.getD (j + 2) 0) = 0 := by
      rw [h2]; simp [absDiff]
    have e2 : absDiff (data.getD j 0) (data.getD (j + 2) 0) = 0 := by
      rw [h1, h2]; simp [absDiff]
    simp only [pixelTestRB, pixelTest, e0, e1, e2]
    simp

/-- Claim C5 witness: a concrete uniformly gray two-pixel buffer is
classified non-colour by both analyzer loops. -/
theorem isColorScan_spec_witness :
    (∀ j ∈ sampleIdx (List.length [100, 100, 100, 255, 100, 100, 100, 255]),
        [100, 100, 100, 255, 100, 100, 100, 255].getD j 0 =
          [100, 100, 100, 255, 100, 100, 100, 255].getD (j + 1) 0 ∧
        [100, 100, 100, 255, 100, 100, 100, 255].getD (j + 1) 0 =
          [100, 100, 100, 255, 100, 100, 100, 255].getD (j + 2) 0) ∧
      isColorScan [100, 100, 100, 255, 100, 100, 100, 255] = false ∧
      isColorScanRB [100, 100, 100, 255, 100, 100, 100, 255] = false :=
  ⟨by decide, (isColorScan_spec _).2.2 (by decide)⟩

/-! ### Tier Resolver (claim C6) -/

/-- Claim C6: the resolved price is the price of a qualifying tier of maximal
`minAmount` when one exists (so a quantity exactly at a tier's threshold
selects that tier over any lower tier), and `basePrice` when no tier
qualifies; the function is total by construction. -/
theorem resolvePrice_spec (opt : PriceOption) (q : ℚ) :
    (qualifying opt.tiers q = [] → resolvePrice opt q = opt.basePrice) ∧
    (qualifying opt.tiers q ≠ [] →
      ∃ t ∈ qualifying opt.tiers q, resolvePrice opt q = t.price ∧
        ∀ u ∈ qualifying opt.tiers q, u.minAmount ≤ t.minAmount) ∧
    (∀ t0 ∈ opt.tiers, t0.minAmount = q →
      ∃ t ∈ qualifying opt.tiers q, resolvePrice opt q = t.price ∧
        t0.minAmount ≤ t.minAmount) := by
  have hperm : (sortDesc (qualifying opt.tiers q)).Perm (qualifying opt.tiers q) :=
    List.perm_insertionSort tierGE (qualifying opt.tiers q)
  have hsorted : List.Sorted tierGE (sortDesc (qualifying opt.tiers q)) :=
    List.sorted_insertionSort tierGE (qualifying opt.tiers q)
  have key : qualifying opt.tiers q ≠ [] →
      ∃ t ∈ qualifying opt.tiers q, resolvePrice opt q = t.price ∧
        ∀ u ∈ qualifying opt.tiers q, u.minAmount ≤ t.minAmount := by
    intro h
    cases hs : sortDesc (qualifying opt.tiers q) with
    | nil =>
      rw [hs] at hperm
      exact absurd (hperm.symm.eq_nil) h
    | cons t rest =>
      rw [hs] at hperm hsorted
      refine ⟨t, hperm.mem_iff.mp (List.mem_cons_self t rest), ?_, fun u hu => ?_⟩
      · unfold resolvePrice
        rw [hs]
      · rcases List.mem_cons.mp (hperm.mem_iff.mpr hu) with h' | h'
        · exact le_of_eq (h' ▸ rfl)
        · exact List.rel_of_sorted_cons hsorted u h'
  refine ⟨fun h => ?_, key, fun t0 ht0 hq => ?_⟩
  · unfold resolvePrice
    rw [h]
    rfl
  · have hmem : t0 ∈ qualifying opt.tiers q :=
      List.mem_filter.mpr ⟨ht0, by simp [le_of_eq hq]⟩
    obtain ⟨t, htq, hprice, hmax⟩ := key (List.ne_nil_of_mem hmem)
    exact ⟨t, htq, hprice, hmax t0 hmem⟩

/-- Claim C6 witness: the default perfect-binding option at quantity 100 has
qualifying tiers, and the resolver picks a qualifying tier of maximal
threshold (the 100-copy break). -/
theorem resolvePrice_spec_witness :
    qualifying (PriceOption.mk "b1" "perfect" 50 [⟨50, 45⟩, ⟨100, 35⟩] .quantity none).tiers
        100 ≠ [] ∧
      ∃ t ∈ qualifying
          (PriceOption.mk "b1" "perfect" 50 [⟨50, 45⟩, ⟨100, 35⟩] .quantity none).tiers 100,
        resolvePrice (PriceOption.mk "b1" "perfect" 50 [⟨50, 45⟩, ⟨100, 35⟩] .quantity none)
            100 = t.price ∧
          ∀ u ∈ qualifying
              (PriceOption.mk "b1" "perfect" 50 [⟨50, 45⟩, ⟨100, 35⟩] .quantity none).tiers 100,
            u.minAmount ≤ t.minAmount :=
  ⟨by decide, (resolvePrice_spec _ 100).2.1 (by decide)⟩

/-! ### Aggregator on empty input (claim C7) -/

/-- Claim C7 counterexample: on an empty analysis sequence the `stats` memo
returns `null` (modelled `none`) — it does not yield a `DocumentStats` object
with zero counts, contradicting the claim. -/
theorem stats_nil_eq_none : stats [] = none := rfl

/-- Claim C7 (amended): on an empty analysis sequence `stats` returns `null`
instead of a zeroed stats object, and never fails; whenever a stats object is
produced (nonempty input) its `total` is the number of analyses and the
colour/monochrome counts partition it. -/
theorem stats_spec (results : List PageAnalysis) :
    (results = [] → stats results = none) ∧
    (results ≠ [] → ∃ s, stats results = some s ∧ s.total = results.length ∧
      s.color + s.bw = s.total ∧
      s.color = (results.filter (·.isColor)).length ∧
      s.bw = (results.filter fun r => !r.isColor).length) := by
  constructor
  · rintro rfl; rfl
  · intro h
    match results, h with
    | r0 :: rest, _ =>
      refine ⟨_, rfl, by simp [stats], ?_, by simp [stats], by simp [stats]⟩
      simp only [stats, List.length_map]
      exact (List.length_eq_length_filter_add (fun r : PageAnalysis => r.isColor)).symm

/-- Claim C7 witness: a concrete one-page input produces a stats object whose
total is 1 and whose colour/monochrome counts partition it. -/
theorem stats_spec_witness :
    (([⟨1, true, "", 210, 297, false⟩] : List PageAnalysis) ≠ []) ∧
      ∃ s, stats [⟨1, true, "", 210, 297, false⟩] = some s ∧
        s.total = List.length [(⟨1, true, "", 210, 297, false⟩ : PageAnalysis)] ∧
        s.color + s.bw = s.total ∧
        s.color = (List.filter (fun r : PageAnalysis => r.isColor)
          [(⟨1, true, "", 210, 297, false⟩ : PageAnalysis)]).length ∧
        s.bw = (List.filter (fun r : PageAnalysis => !r.isColor)
          [(⟨1, true, "", 210, 297, false⟩ : PageAnalysis)]).length :=
  ⟨List.cons_ne_nil _ _, (stats_spec _).2 (List.cons_ne_nil _ _)⟩

/-! ### End-to-end numeric scenario (claim C8) -/

/-- Claim C8 counterexample: in the claimed scenario (595 pt page, `dpi = 300`,
no `targetWidthMm`) the pipeline's pixel width is 2479 as claimed, but the
reported output width is `round(2479/300*25.4, 1) = 209.9` mm, not the
claimed `210.0`. -/
theorem scenario595_mm_ne_210 :
    outputWidthPx 595 300 none = 2479 ∧ outputMm 2479 300 ≠ 210 := by
  constructor
  · norm_num [outputWidthPx, renderScale]
  · norm_num [outputMm, round_eq]

/-- Claim C8 (amended): the scenario yields `renderScale = 300/72 = 25/6`,
`outputWidthPx = floor(595·25/6) = 2479`, and a reported output width of
`209.9` mm (one-decimal rounding of `2479/300·25.4 ≈ 209.889`). -/
theorem scenario595_values :
    renderScale 595 300 none = 25 / 6 ∧
      outputWidthPx 595 300 none = 2479 ∧
      outputMm 2479 300 = 2099 / 10 := by
  refine ⟨by norm_num [renderScale], by norm_num [outputWidthPx, renderScale], ?_⟩
  norm_num [outputMm, round_eq]

/-! ### Millimetre rounding uniformity (claim C9) -/

/-- Claim C9 counterexample: for a 595 pt page the analyzer reports 210 mm
(whole-millimetre rounding) while the converter reports 209.9 mm (one-decimal
rounding) — the components do not apply identical one-decimal rounding and
their reported sizes drift for the same page. -/
theorem analyzerMm_ne_converterMm_at_595 :
    analyzerMm 595 = 210 ∧ converterMm 595 = 2099 / 10 ∧
      (analyzerMm 595 : ℚ) ≠ converterMm 595 := by
  refine ⟨by norm_num [analyzerMm, round_eq], by norm_num [converterMm, round_eq], ?_⟩
  norm_num [analyzerMm, converterMm, round_eq]

/-- Claim C9 (amended): the converter rounds millimetre sizes to one decimal
while the analyzer rounds to whole millimetres, so the two reports for the
same page width may differ; the drift is bounded by `11/20` mm. -/
theorem analyzerMm_converterMm_drift (pt : ℚ) :
    |(analyzerMm pt : ℚ) - converterMm pt| ≤ 11 / 20 := by
  set x : ℚ := pt / 72 * 25.4 with hx
  have h1 : |x - (analyzerMm pt : ℚ)| ≤ 1 / 2 := abs_sub_round x
  have h2 : |x * 10 - ((round (x * 10) : ℤ) : ℚ)| ≤ 1 / 2 := abs_sub_round (x * 10)
  have h3 : |x - converterMm pt| ≤ 1 / 20 := by
    have : x - converterMm pt = (x * 10 - ((round (x * 10) : ℤ) : ℚ)) / 10 := by
      rw [converterMm, ← hx]
      ring
    rw [this, abs_div]
    rw [show |(10 : ℚ)| = 10 by norm_num]
    linarith
  calc |(analyzerMm pt : ℚ) - converterMm pt|
      = |((analyzerMm pt : ℚ) - x) + (x - converterMm pt)| := by ring_nf
    _ ≤ |(analyzerMm pt : ℚ) - x| + |x - converterMm pt| := abs_add _ _
    _ = |x - (analyzerMm pt : ℚ)| + |x - converterMm pt| := by rw [abs_sub_comm]
    _ ≤ 1 / 2 + 1 / 20 := add_le_add h1 h3
    _ = 11 / 20 := by norm_num

/-! ### Zero-pages guard of the price computation (claim C10) -/

/-- Claim C10: when the total page count is 0 the computed total price is 0
for every combination of colour/monochrome counts, options, addons and
quantity — the unit-price composition formula is bypassed entirely. -/
theorem totalPrice_zero_pages (bindingOpts paperOpts : List PriceOption)
    (addons : List Addon) (selBinding selPaper : String)
    (manualColor manualBw quantity : ℚ) :
    totalPrice bindingOpts paperOpts addons selBinding selPaper 0
      manualColor manualBw quantity = 0 := by
  simp [totalPrice]

end PdfTools
